import Mathlib

/-!
Verification of the policybot dashboard "issues" topic: the issue-summary
resolution pipeline.  The Go code resolves an organization login and a fixed
repository name through a read-through cache, streams issues from a store and
projects each raw issue into a display summary.  Two historical variants of the
projection exist: a display-resolved one (resolving author/assignee IDs to
logins, truncating titles) and a pass-through one (carrying raw IDs).

Modelling choices:
- A Go cache lookup `(entity *T, err error)` has three outcomes: error,
  nil entity (not found) and found.  It is embedded as
  `Except String (Option T)`: `.error msg` for a lookup failure,
  `.ok none` for not-found, `.ok (some v)` for found.
- A Go function returning `([]T, error)` is embedded as `List T × Option GoError`
  (Go code returns `nil, err` on failure; `nil` maps to `[]`).
- The store's streaming scan invokes a visitor once per issue in store order and
  then reports an optional terminal error.  Since the visitors in this code
  always return nil, the interaction is embedded as the list of issues yielded
  before termination plus the scan's own terminal error (`ScanResult`).
- Go strings are byte sequences and `len`/slicing operate on bytes.  Issue
  titles, which are the only strings the code slices, are embedded as byte
  lists (`List Nat`, each entry < 256 in any UTF-8-encoded input); all other
  strings are opaque and embedded as Lean `String`.
-/

namespace Issues

/-- HTTP status used by `util.HTTPErrorf` for lookup failures. -/
def StatusInternalServerError : Nat := 500

/-- HTTP status used by `util.HTTPErrorf` for not-found outcomes. -/
def StatusNotFound : Nat := 404

/-- A Go `error` value as observed by this component: either an HTTP-status
carrying error built by `util.HTTPErrorf`, or an arbitrary other error (such as
a store scan error). -/
inductive GoError where
  | httpError (statusCode : Nat) (message : String)
  | otherError (message : String)
deriving DecidableEq, Repr

/-- The status code carried by an optional error, when it is an HTTP error. -/
def errStatus : Option GoError → Option Nat
  | some (.httpError s _) => some s
  | _ => none

/-- Result of a cache lookup `(entity *T, err error)`:
`.error` = lookup failure, `.ok none` = not found, `.ok (some v)` = found. -/
abbrev LookupResult (α : Type) := Except String (Option α)

/-- `storage.Org`: the fields this component reads. -/
structure Org where
  OrgID : String
  Login : String
deriving DecidableEq, Repr

/-- `storage.Repo`: the fields this component reads. -/
structure Repo where
  RepoID : String
deriving DecidableEq, Repr

/-- `storage.User`: the fields this component reads. -/
structure User where
  Login : String
deriving DecidableEq, Repr

/-- `storage.Issue`: the fields this component reads.  `Title` is the raw byte
sequence of the Go string. -/
structure Issue where
  Number : Int
  Title : List Nat
  State : String
  AuthorID : String
  AssigneeIDs : List String
deriving DecidableEq, Repr

/-- `cache.Cache`: the three read-through lookups consumed here. -/
structure Cache where
  ReadOrgByLogin : String → LookupResult Org
  ReadRepoByName : String → String → LookupResult Repo
  ReadUser : String → LookupResult User

/-- Outcome of one streaming store scan: the issues yielded to the visitor, in
store order, and the scan's terminal error (if any). -/
structure ScanResult where
  yielded : List Issue
  scanErr : Option GoError

/-- `storage.Store`: the two issue scans consumed by the two variants.
`QueryOpenIssuesByRepo` filters to open issues at the store layer,
`QueryIssuesByRepo` yields every issue. -/
structure Store where
  QueryOpenIssuesByRepo : String → String → ScanResult
  QueryIssuesByRepo : String → String → ScanResult

/-- `dashboard.Options`: only `DefaultOrg` is read here. -/
structure Options where
  DefaultOrg : String

/-- Display-resolved `IssueSummary` (topic.go): author and assignees resolved to
login strings, title possibly truncated. -/
structure IssueSummary where
  Repo : String
  Number : Int
  Title : List Nat
  State : String
  AuthorLogin : String
  Assignees : String
deriving DecidableEq, Repr

/-- The `topic` struct of topic.go: the store, the cache, the page template
(embedded as a function from the data fed to `Execute` to either a rendering
error or the rendered string) and the options. -/
structure Topic where
  store : Store
  cache : Cache
  page : List IssueSummary → Except GoError String
  options : Options

/-- `getUser` (topic.go lines 172-179): total helper; returns the user's login
when the lookup succeeds with a found user, else the placeholder "unknown". -/
def getUser (t : Topic) (authorID : String) : String :=
  match t.cache.ReadUser authorID with
  | .ok (some author) => author.Login
  | _ => "unknown"

/-- The bytes of the literal `". . ."` appended by the title truncation. -/
def ellipsisBytes : List Nat := [46, 32, 46, 32, 46]

/-- The title computation in the visitor (topic.go lines 151-154):
`if len(title) > 50 { title = title[0:50] + ". . ." }` — Go `len` and slicing
are in bytes. -/
def truncTitle (title : List Nat) : List Nat :=
  if title.length > 50 then title.take 50 ++ ellipsisBytes else title

/-- The assignee-string computation in the visitor (topic.go lines 143-149):
starts from `""` and for each assignee ID appends `",\n"` first when the
accumulated string is non-empty, then the resolved login. -/
def formatAssignees (t : Topic) (ids : List String) : String :=
  ids.foldl
    (fun assignees assigneeID =>
      (if assignees ≠ "" then assignees ++ ",\n" else assignees) ++ getUser t assigneeID)
    ""

/-- The projection performed by the visitor passed to `QueryOpenIssuesByRepo`
(topic.go lines 141-164) on one raw issue. -/
def projectIssue (t : Topic) (repoName : String) (i : Issue) : IssueSummary :=
  { Repo := repoName
    Number := i.Number
    Title := truncTitle i.Title
    State := i.State
    AuthorLogin := getUser t i.AuthorID
    Assignees := formatAssignees t i.AssigneeIDs }

/-- `getIssuesForRepo` (topic.go lines 132-170). -/
def getIssuesForRepo (t : Topic) (orgID repoName : String) :
    List IssueSummary × Option GoError :=
  match t.cache.ReadRepoByName orgID repoName with
  | .error e =>
      ([], some (.httpError StatusInternalServerError
        ("unable to get information on repository " ++ repoName ++ ": " ++ e)))
  | .ok none =>
      ([], some (.httpError StatusNotFound
        ("no information available on repository " ++ repoName)))
  | .ok (some repo) =>
      let scan := t.store.QueryOpenIssuesByRepo orgID repo.RepoID
      match scan.scanErr with
      | some e => ([], some e)
      | none => (scan.yielded.map (projectIssue t repoName), none)

/-- `getIssues` (topic.go lines 120-130): resolves the organization, then the
hardcoded repository "istio". -/
def getIssues (t : Topic) (orgLogin : String) :
    List IssueSummary × Option GoError :=
  match t.cache.ReadOrgByLogin orgLogin with
  | .error e =>
      ([], some (.httpError StatusInternalServerError
        ("unable to get information on organization " ++ orgLogin ++ ": " ++ e)))
  | .ok none =>
      ([], some (.httpError StatusNotFound
        ("no information available on organization " ++ orgLogin)))
  | .ok (some org) => getIssuesForRepo t org.OrgID "istio"

/-- The observable rendering calls a handler makes on its response writer. -/
inductive RenderAction where
  | RenderHTMLError (err : GoError)
  | RenderHTML (content : String)
deriving DecidableEq, Repr

/-- `handleListIssuesHTML` (topic.go lines 85-103): `queryOrg` is the value of
the `org` query parameter (`""` when absent).  On a resolver error it calls
`RenderHTMLError` but does NOT return; it falls through, executes the page
template on the (nil) issue list and renders the result. -/
def handleListIssuesHTML (t : Topic) (queryOrg : String) : List RenderAction :=
  let orgLogin := if queryOrg = "" then t.options.DefaultOrg else queryOrg
  let res := getIssues t orgLogin
  (match res.2 with
   | some err => [RenderAction.RenderHTMLError err]
   | none => []) ++
  (match t.page res.1 with
   | .error e => [RenderAction.RenderHTMLError e]
   | .ok s => [RenderAction.RenderHTML s])

end Issues

namespace Issues.Raw

/-- Pass-through `IssueSummary` (src/unnamed/part_000): raw author and assignee
IDs, untruncated title. -/
structure IssueSummary where
  Repo : String
  Number : Int
  Title : List Nat
  State : String
  AuthorID : String
  AssigneeIDs : List String
deriving DecidableEq, Repr

/-- The `topic` struct of the pass-through variant, restricted to the fields
its `getIssues` reads. -/
structure Topic where
  store : Store
  cache : Cache

/-- The projection performed by the visitor passed to `QueryIssuesByRepo`
(part_000 lines 137-146) on one raw issue. -/
def projectIssue (repoName : String) (i : Issue) : IssueSummary :=
  { Repo := repoName
    Number := i.Number
    Title := i.Title
    State := i.State
    AuthorID := i.AuthorID
    AssigneeIDs := i.AssigneeIDs }

/-- `getIssues` of the pass-through variant (part_000 lines 120-152): resolves
the organization, then the hardcoded repository "istio", then scans all issues
and carries their fields through verbatim. -/
def getIssues (t : Topic) (orgLogin : String) :
    List IssueSummary × Option GoError :=
  match t.cache.ReadOrgByLogin orgLogin with
  | .error e =>
      ([], some (.httpError StatusInternalServerError
        ("unable to get information on organization " ++ orgLogin ++ ": " ++ e)))
  | .ok none =>
      ([], some (.httpError StatusNotFound
        ("no information available on organization " ++ orgLogin)))
  | .ok (some org) =>
      let repoName := "istio"
      match t.cache.ReadRepoByName org.OrgID repoName with
      | .error e =>
          ([], some (.httpError StatusInternalServerError
            ("unable to get information on repository " ++ repoName ++ ": " ++ e)))
      | .ok none =>
          ([], some (.httpError StatusNotFound
            ("no information available on repository " ++ repoName)))
      | .ok (some repo) =>
          let scan := t.store.QueryIssuesByRepo org.OrgID repo.RepoID
          match scan.scanErr with
          | some e => ([], some e)
          | none => (scan.yielded.map (projectIssue repoName), none)

end Issues.Raw

namespace Issues

/-- UTF-8 encoding of one Unicode character, as byte values. -/
def utf8EncodeChar (c : Char) : List Nat :=
  let n := c.toNat
  if n < 128 then [n]
  else if n < 2048 then [192 + n / 64, 128 + n % 64]
  else if n < 65536 then [224 + n / 4096, 128 + (n / 64) % 64, 128 + n % 64]
  else [240 + n / 262144, 128 + (n / 4096) % 64, 128 + (n / 64) % 64, 128 + n % 64]

/-- UTF-8 encoding of a character sequence: the byte content of the
corresponding Go string. -/
def utf8Encode (cs : List Char) : List Nat :=
  (cs.map utf8EncodeChar).flatten

end Issues

namespace Issues

/-- The assignee string as §4.2 of the spec words it: the resolved assignee
logins "joined by a comma followed by a newline", input order preserved, no
trailing separator, empty for no assignees.  Defined from the spec's words to
compare against the code's fold. -/
def specAssigneeJoin : List String → String
  | [] => ""
  | [login] => login
  | login :: rest => login ++ ",\n" ++ specAssigneeJoin rest

/-- Helper for reasoning about the code's fold: the separator-led tail of a
join, one `",\n" ++ login` block per login. -/
def sepJoin : List String → String
  | [] => ""
  | login :: rest => ",\n" ++ login ++ sepJoin rest

theorem string_length_eq_zero {s : String} (h : s.length = 0) : s = "" := by
  cases s with
  | mk data =>
    simp only [String.length] at h
    rw [List.length_eq_zero] at h
    simp [h]

theorem string_append_ne_empty_left (s t : String) (hs : s ≠ "") : s ++ t ≠ "" := by
  intro h
  apply hs
  apply string_length_eq_zero
  have hl := congrArg String.length h
  rw [String.length_append, show ("" : String).length = 0 from rfl] at hl
  omega

theorem specAssigneeJoin_cons (y : String) (ys : List String) :
    specAssigneeJoin (y :: ys) = y ++ sepJoin ys := by
  induction ys generalizing y with
  | nil => simp [specAssigneeJoin, sepJoin]
  | cons z zs ih =>
    rw [show specAssigneeJoin (y :: z :: zs) = y ++ ",\n" ++ specAssigneeJoin (z :: zs) from rfl]
    rw [ih z]
    simp [sepJoin, String.append_assoc]

theorem formatAssignees_go (t : Topic) (ids : List String) :
    ∀ (s : String), s ≠ "" →
      List.foldl
        (fun assignees assigneeID =>
          (if assignees ≠ "" then assignees ++ ",\n" else assignees) ++ getUser t assigneeID)
        s ids
      = s ++ sepJoin (ids.map (getUser t)) := by
  induction ids with
  | nil => intro s hs; simp [sepJoin]
  | cons x xs ih =>
    intro s hs
    rw [List.foldl_cons, if_pos hs, String.append_assoc]
    rw [ih (s ++ (",\n" ++ getUser t x)) (string_append_ne_empty_left s _ hs)]
    simp [sepJoin, String.append_assoc]

theorem formatAssignees_eq_specJoin (t : Topic) (ids : List String)
    (h : ∀ id ∈ ids, getUser t id ≠ "") :
    formatAssignees t ids = specAssigneeJoin (ids.map (getUser t)) := by
  cases ids with
  | nil => rfl
  | cons x xs =>
    unfold formatAssignees
    rw [List.foldl_cons, if_neg (by simp), String.empty_append]
    rw [formatAssignees_go t xs (getUser t x) (h x (by simp))]
    rw [List.map_cons, specAssigneeJoin_cons]

end Issues

namespace Issues

/-- A cache whose every lookup fails with a transport error. -/
def cacheAllErr : Cache :=
  { ReadOrgByLogin := fun _ => .error "transport down"
    ReadRepoByName := fun _ _ => .error "transport down"
    ReadUser := fun _ => .error "transport down" }

/-- A cache whose every lookup succeeds but finds nothing. -/
def cacheAllNone : Cache :=
  { ReadOrgByLogin := fun _ => .ok none
    ReadRepoByName := fun _ _ => .ok none
    ReadUser := fun _ => .ok none }

/-- A cache that resolves the org "istio" to `o1`, the repo ("o1", "istio") to
`r1`, user `u1` to alice and `u2` to bob; everything else is not found. -/
def cacheFound : Cache :=
  { ReadOrgByLogin := fun login =>
      if login = "istio" then .ok (some { OrgID := "o1", Login := "istio" }) else .ok none
    ReadRepoByName := fun orgID name =>
      if orgID = "o1" && name = "istio" then .ok (some { RepoID := "r1" }) else .ok none
    ReadUser := fun id =>
      if id = "u1" then .ok (some { Login := "alice" })
      else if id = "u2" then .ok (some { Login := "bob" })
      else .ok none }

/-- Like `cacheFound` but `u1` resolves to a user with an empty login. -/
def cacheEmptyLogin : Cache :=
  { ReadOrgByLogin := cacheFound.ReadOrgByLogin
    ReadRepoByName := cacheFound.ReadRepoByName
    ReadUser := fun id =>
      if id = "u1" then .ok (some { Login := "" })
      else if id = "u2" then .ok (some { Login := "bob" })
      else .ok none }

/-- Issue "hi", author u1, assignees u1 and u2. -/
def issueA : Issue :=
  { Number := 1, Title := [104, 105], State := "open", AuthorID := "u1",
    AssigneeIDs := ["u1", "u2"] }

/-- Issue "yo", unknown author, no assignees. -/
def issueB : Issue :=
  { Number := 2, Title := [121, 111], State := "open", AuthorID := "zz",
    AssigneeIDs := [] }

/-- A store yielding `issueA` then `issueB` and completing cleanly. -/
def storeOK : Store :=
  { QueryOpenIssuesByRepo := fun _ _ => { yielded := [issueA, issueB], scanErr := none }
    QueryIssuesByRepo := fun _ _ => { yielded := [issueA, issueB], scanErr := none } }

/-- A store yielding two issues and then failing with a scan error. -/
def storeFail : Store :=
  { QueryOpenIssuesByRepo := fun _ _ =>
      { yielded := [issueA, issueB], scanErr := some (.otherError "row decode failed") }
    QueryIssuesByRepo := fun _ _ =>
      { yielded := [issueA, issueB], scanErr := some (.otherError "row decode failed") } }

/-- A page template that always renders successfully. -/
def pageOK : List IssueSummary → Except GoError String := fun _ => .ok "rendered page"

def optIstio : Options := { DefaultOrg := "istio" }

def topicErr : Topic := { store := storeOK, cache := cacheAllErr, page := pageOK, options := optIstio }

def topicNone : Topic := { store := storeOK, cache := cacheAllNone, page := pageOK, options := optIstio }

def topicOK : Topic := { store := storeOK, cache := cacheFound, page := pageOK, options := optIstio }

def topicScanFail : Topic := { store := storeFail, cache := cacheFound, page := pageOK, options := optIstio }

def topicEmptyLogin : Topic := { store := storeOK, cache := cacheEmptyLogin, page := pageOK, options := optIstio }

def rawTopicOK : Raw.Topic := { store := storeOK, cache := cacheFound }

def rawTopicScanFail : Raw.Topic := { store := storeFail, cache := cacheFound }

end Issues

namespace Issues

/-- C1: for every organization login and repository name, the resolver keeps
the two failure conditions of cache resolution apart: a lookup error yields an
HTTP error with status 500 (`StatusInternalServerError`), a successful lookup
that finds nothing (nil entity) yields status 404 (`StatusNotFound`), for both
the organization lookup in `getIssues` and the repository lookup in
`getIssuesForRepo`; the two statuses are distinct, so the outcomes are never
conflated. -/
theorem getIssues_error_classification (t : Topic) (orgLogin orgID repoName : String) :
    (∀ e, t.cache.ReadOrgByLogin orgLogin = .error e →
      errStatus (getIssues t orgLogin).2 = some StatusInternalServerError)
  ∧ (t.cache.ReadOrgByLogin orgLogin = .ok none →
      errStatus (getIssues t orgLogin).2 = some StatusNotFound)
  ∧ (∀ e, t.cache.ReadRepoByName orgID repoName = .error e →
      errStatus (getIssuesForRepo t orgID repoName).2 = some StatusInternalServerError)
  ∧ (t.cache.ReadRepoByName orgID repoName = .ok none →
      errStatus (getIssuesForRepo t orgID repoName).2 = some StatusNotFound)
  ∧ StatusInternalServerError ≠ StatusNotFound := by
  refine ⟨?_, ?_, ?_, ?_, by decide⟩
  · intro e he
    simp [getIssues, he, errStatus]
  · intro hn
    simp [getIssues, hn, errStatus]
  · intro e he
    simp [getIssuesForRepo, he, errStatus]
  · intro hn
    simp [getIssuesForRepo, hn, errStatus]

/-- Witness for C1 at concrete topics: an all-erroring cache produces 500 on
both lookups, an all-not-found cache produces 404 on both. -/
theorem getIssues_error_classification_witness :
    errStatus (getIssues topicErr "istio").2 = some StatusInternalServerError
  ∧ errStatus (getIssues topicNone "istio").2 = some StatusNotFound
  ∧ errStatus (getIssuesForRepo topicErr "o1" "istio").2 = some StatusInternalServerError
  ∧ errStatus (getIssuesForRepo topicNone "o1" "istio").2 = some StatusNotFound :=
  ⟨(getIssues_error_classification topicErr "istio" "o1" "istio").1 "transport down" rfl,
   (getIssues_error_classification topicNone "istio" "o1" "istio").2.1 rfl,
   (getIssues_error_classification topicErr "istio" "o1" "istio").2.2.1 "transport down" rfl,
   (getIssues_error_classification topicNone "istio" "o1" "istio").2.2.2.1 rfl⟩

/-- C2: when the store scan fails after yielding any prefix of issues, the
resolver returns the empty list (Go `nil`) together with the scan's error,
unchanged — in both variants.  The yielded prefix (of any length N ≥ 0) is
discarded. -/
theorem scanFailure_all_or_nothing (t : Topic) (u : Raw.Topic)
    (orgID repoName orgLogin : String) (repo : Repo) (org : Org) (repoU : Repo)
    (e eu : GoError) :
    (t.cache.ReadRepoByName orgID repoName = .ok (some repo) →
     (t.store.QueryOpenIssuesByRepo orgID repo.RepoID).scanErr = some e →
     getIssuesForRepo t orgID repoName = ([], some e))
  ∧ (u.cache.ReadOrgByLogin orgLogin = .ok (some org) →
     u.cache.ReadRepoByName org.OrgID "istio" = .ok (some repoU) →
     (u.store.QueryIssuesByRepo org.OrgID repoU.RepoID).scanErr = some eu →
     Raw.getIssues u orgLogin = ([], some eu)) := by
  constructor
  · intro hrepo hscan
    simp [getIssuesForRepo, hrepo, hscan]
  · intro horg hrepo hscan
    simp [Raw.getIssues, horg, hrepo, hscan]

/-- Witness for C2: a store failing after yielding two issues makes both
variants return no summaries and the scan error itself. -/
theorem scanFailure_all_or_nothing_witness :
    getIssuesForRepo topicScanFail "o1" "istio" = ([], some (.otherError "row decode failed"))
  ∧ Raw.getIssues rawTopicScanFail "istio" = ([], some (.otherError "row decode failed")) :=
  ⟨(scanFailure_all_or_nothing topicScanFail rawTopicScanFail "o1" "istio" "istio"
      { RepoID := "r1" } { OrgID := "o1", Login := "istio" } { RepoID := "r1" }
      (.otherError "row decode failed") (.otherError "row decode failed")).1 rfl rfl,
   (scanFailure_all_or_nothing topicScanFail rawTopicScanFail "o1" "istio" "istio"
      { RepoID := "r1" } { OrgID := "o1", Login := "istio" } { RepoID := "r1" }
      (.otherError "row decode failed") (.otherError "row decode failed")).2 rfl rfl rfl⟩

end Issues

namespace Issues

/-- A pass-through topic identical to `rawTopicOK` except for its user lookup,
used to show user lookups cannot influence the pass-through variant. -/
def rawTopicEmptyLogin : Raw.Topic := { store := storeOK, cache := cacheEmptyLogin }

/-- C6: for a resolvable (org, repo) pair whose scan succeeds, `getIssues`
returns exactly the store's yielded issues mapped one-to-one through the
projection, in emission order with no sorting, hence a sequence of the same
length, with a nil error; a scan yielding no issues gives `([], none)`.  The
same holds for the pass-through variant over its all-issues scan. -/
theorem resolve_length_order (t : Topic) (u : Raw.Topic) (orgLogin : String)
    (org : Org) (repo : Repo) (orgU : Org) (repoU : Repo) :
    (t.cache.ReadOrgByLogin orgLogin = .ok (some org) →
     t.cache.ReadRepoByName org.OrgID "istio" = .ok (some repo) →
     (t.store.QueryOpenIssuesByRepo org.OrgID repo.RepoID).scanErr = none →
       getIssues t orgLogin
         = ((t.store.QueryOpenIssuesByRepo org.OrgID repo.RepoID).yielded.map
              (projectIssue t "istio"), none)
     ∧ (getIssues t orgLogin).1.length
         = (t.store.QueryOpenIssuesByRepo org.OrgID repo.RepoID).yielded.length
     ∧ ((t.store.QueryOpenIssuesByRepo org.OrgID repo.RepoID).yielded = [] →
          getIssues t orgLogin = ([], none)))
  ∧ (u.cache.ReadOrgByLogin orgLogin = .ok (some orgU) →
     u.cache.ReadRepoByName orgU.OrgID "istio" = .ok (some repoU) →
     (u.store.QueryIssuesByRepo orgU.OrgID repoU.RepoID).scanErr = none →
       Raw.getIssues u orgLogin
         = ((u.store.QueryIssuesByRepo orgU.OrgID repoU.RepoID).yielded.map
              (Raw.projectIssue "istio"), none)
     ∧ (Raw.getIssues u orgLogin).1.length
         = (u.store.QueryIssuesByRepo orgU.OrgID repoU.RepoID).yielded.length) := by
  constructor
  · intro horg hrepo hscan
    have hmain : getIssues t orgLogin
        = ((t.store.QueryOpenIssuesByRepo org.OrgID repo.RepoID).yielded.map
            (projectIssue t "istio"), none) := by
      simp [getIssues, getIssuesForRepo, horg, hrepo, hscan]
    refine ⟨hmain, by rw [hmain]; simp, ?_⟩
    intro hnil
    rw [hmain, hnil]
    simp
  · intro horg hrepo hscan
    have hmain : Raw.getIssues u orgLogin
        = ((u.store.QueryIssuesByRepo orgU.OrgID repoU.RepoID).yielded.map
            (Raw.projectIssue "istio"), none) := by
      simp [Raw.getIssues, horg, hrepo, hscan]
    exact ⟨hmain, by rw [hmain]; simp⟩

/-- Witness for C6: the concrete store yields two issues and both variants
return exactly two summaries. -/
theorem resolve_length_order_witness :
    (getIssues topicOK "istio").1.length = 2
  ∧ (Raw.getIssues rawTopicOK "istio").1.length = 2 := by
  constructor
  · have h := (resolve_length_order topicOK rawTopicOK "istio"
      { OrgID := "o1", Login := "istio" } { RepoID := "r1" }
      { OrgID := "o1", Login := "istio" } { RepoID := "r1" }).1 rfl rfl rfl
    rw [h.2.1]
    rfl
  · have h := (resolve_length_order topicOK rawTopicOK "istio"
      { OrgID := "o1", Login := "istio" } { RepoID := "r1" }
      { OrgID := "o1", Login := "istio" } { RepoID := "r1" }).2 rfl rfl rfl
    rw [h.2]
    rfl

/-- C5: `getUser` is total and never fails its caller: it returns the user's
`Login` when the cache lookup succeeds with a found user, and the placeholder
"unknown" on a not-found outcome or on any lookup error; consequently, when org
and repo resolve and the scan succeeds, `getIssues` still succeeds (nil error)
and every summary's `AuthorLogin` is `getUser` of the raw issue's `AuthorID`
(hence "unknown" whenever that author fails to resolve). -/
theorem getUser_total_unknown (t : Topic) (userID orgLogin : String)
    (org : Org) (repo : Repo) :
    (∀ usr, t.cache.ReadUser userID = .ok (some usr) → getUser t userID = usr.Login)
  ∧ (t.cache.ReadUser userID = .ok none → getUser t userID = "unknown")
  ∧ (∀ e, t.cache.ReadUser userID = .error e → getUser t userID = "unknown")
  ∧ (t.cache.ReadOrgByLogin orgLogin = .ok (some org) →
     t.cache.ReadRepoByName org.OrgID "istio" = .ok (some repo) →
     (t.store.QueryOpenIssuesByRepo org.OrgID repo.RepoID).scanErr = none →
       (getIssues t orgLogin).2 = none
     ∧ List.Forall₂ (fun (s : IssueSummary) (i : Issue) =>
           s.AuthorLogin = getUser t i.AuthorID)
         (getIssues t orgLogin).1
         (t.store.QueryOpenIssuesByRepo org.OrgID repo.RepoID).yielded) := by
  refine ⟨?_, ?_, ?_, ?_⟩
  · intro usr h
    simp [getUser, h]
  · intro h
    simp [getUser, h]
  · intro e h
    simp [getUser, h]
  · intro horg hrepo hscan
    have hmain : getIssues t orgLogin
        = ((t.store.QueryOpenIssuesByRepo org.OrgID repo.RepoID).yielded.map
            (projectIssue t "istio"), none) := by
      simp [getIssues, getIssuesForRepo, horg, hrepo, hscan]
    rw [hmain]
    refine ⟨rfl, ?_⟩
    rw [List.forall₂_map_left_iff]
    exact List.forall₂_same.mpr fun i _ => rfl

/-- Witness for C5: alice resolves, a missing user and an erroring lookup both
give "unknown", and the resolved run still succeeds. -/
theorem getUser_total_unknown_witness :
    getUser topicOK "u1" = "alice"
  ∧ getUser topicOK "zz" = "unknown"
  ∧ getUser topicErr "u1" = "unknown"
  ∧ (getIssues topicOK "istio").2 = none :=
  ⟨(getUser_total_unknown topicOK "u1" "istio"
      { OrgID := "o1", Login := "istio" } { RepoID := "r1" }).1 { Login := "alice" } rfl,
   (getUser_total_unknown topicOK "zz" "istio"
      { OrgID := "o1", Login := "istio" } { RepoID := "r1" }).2.1 rfl,
   (getUser_total_unknown topicErr "u1" "istio"
      { OrgID := "o1", Login := "istio" } { RepoID := "r1" }).2.2.1 "transport down" rfl,
   ((getUser_total_unknown topicOK "u1" "istio"
      { OrgID := "o1", Login := "istio" } { RepoID := "r1" }).2.2.2 rfl rfl rfl).1⟩

/-- C8: on a successful resolve, every summary's `Repo` equals the single
repository name used for the request, and `Number` and `State` are copied
verbatim from the corresponding raw issue — under both projection policies. -/
theorem summaries_repo_number_state (t : Topic) (u : Raw.Topic)
    (orgID repoName orgLogin : String) (repo : Repo) (orgU : Org) (repoU : Repo) :
    (t.cache.ReadRepoByName orgID repoName = .ok (some repo) →
     (t.store.QueryOpenIssuesByRepo orgID repo.RepoID).scanErr = none →
     List.Forall₂ (fun (s : IssueSummary) (i : Issue) =>
         s.Repo = repoName ∧ s.Number = i.Number ∧ s.State = i.State)
       (getIssuesForRepo t orgID repoName).1
       (t.store.QueryOpenIssuesByRepo orgID repo.RepoID).yielded)
  ∧ (u.cache.ReadOrgByLogin orgLogin = .ok (some orgU) →
     u.cache.ReadRepoByName orgU.OrgID "istio" = .ok (some repoU) →
     (u.store.QueryIssuesByRepo orgU.OrgID repoU.RepoID).scanErr = none →
     List.Forall₂ (fun (s : Raw.IssueSummary) (i : Issue) =>
         s.Repo = "istio" ∧ s.Number = i.Number ∧ s.State = i.State)
       (Raw.getIssues u orgLogin).1
       (u.store.QueryIssuesByRepo orgU.OrgID repoU.RepoID).yielded) := by
  constructor
  · intro hrepo hscan
    have hmain : (getIssuesForRepo t orgID repoName).1
        = (t.store.QueryOpenIssuesByRepo orgID repo.RepoID).yielded.map
            (projectIssue t repoName) := by
      simp [getIssuesForRepo, hrepo, hscan]
    rw [hmain, List.forall₂_map_left_iff]
    exact List.forall₂_same.mpr fun i _ => ⟨rfl, rfl, rfl⟩
  · intro horg hrepo hscan
    have hmain : (Raw.getIssues u orgLogin).1
        = (u.store.QueryIssuesByRepo orgU.OrgID repoU.RepoID).yielded.map
            (Raw.projectIssue "istio") := by
      simp [Raw.getIssues, horg, hrepo, hscan]
    rw [hmain, List.forall₂_map_left_iff]
    exact List.forall₂_same.mpr fun i _ => ⟨rfl, rfl, rfl⟩

/-- Witness for C8 at the concrete two-issue store, both variants. -/
theorem summaries_repo_number_state_witness :
    List.Forall₂ (fun (s : IssueSummary) (i : Issue) =>
        s.Repo = "istio" ∧ s.Number = i.Number ∧ s.State = i.State)
      (getIssuesForRepo topicOK "o1" "istio").1 [issueA, issueB]
  ∧ List.Forall₂ (fun (s : Raw.IssueSummary) (i : Issue) =>
        s.Repo = "istio" ∧ s.Number = i.Number ∧ s.State = i.State)
      (Raw.getIssues rawTopicOK "istio").1 [issueA, issueB] :=
  ⟨(summaries_repo_number_state topicOK rawTopicOK "o1" "istio" "istio"
      { RepoID := "r1" } { OrgID := "o1", Login := "istio" } { RepoID := "r1" }).1 rfl rfl,
   (summaries_repo_number_state topicOK rawTopicOK "o1" "istio" "istio"
      { RepoID := "r1" } { OrgID := "o1", Login := "istio" } { RepoID := "r1" }).2 rfl rfl rfl⟩

/-- C7: under the pass-through policy every summary carries `AuthorID`,
`AssigneeIDs` and `Title` bit-identical from the raw issue, and the result
does not depend on the cache's user lookup at all (no lookups beyond org and
repo): two topics agreeing on store, org lookup and repo lookup — but with
arbitrary, possibly different, user lookups — produce identical results. -/
theorem passthrough_verbatim (u uAlt : Raw.Topic) (orgLogin : String)
    (org : Org) (repo : Repo) :
    (u.cache.ReadOrgByLogin orgLogin = .ok (some org) →
     u.cache.ReadRepoByName org.OrgID "istio" = .ok (some repo) →
     (u.store.QueryIssuesByRepo org.OrgID repo.RepoID).scanErr = none →
     List.Forall₂ (fun (s : Raw.IssueSummary) (i : Issue) =>
         s.AuthorID = i.AuthorID ∧ s.AssigneeIDs = i.AssigneeIDs ∧ s.Title = i.Title)
       (Raw.getIssues u orgLogin).1
       (u.store.QueryIssuesByRepo org.OrgID repo.RepoID).yielded)
  ∧ (u.store = uAlt.store →
     u.cache.ReadOrgByLogin = uAlt.cache.ReadOrgByLogin →
     u.cache.ReadRepoByName = uAlt.cache.ReadRepoByName →
     Raw.getIssues u orgLogin = Raw.getIssues uAlt orgLogin) := by
  constructor
  · intro horg hrepo hscan
    have hmain : (Raw.getIssues u orgLogin).1
        = (u.store.QueryIssuesByRepo org.OrgID repo.RepoID).yielded.map
            (Raw.projectIssue "istio") := by
      simp [Raw.getIssues, horg, hrepo, hscan]
    rw [hmain, List.forall₂_map_left_iff]
    exact List.forall₂_same.mpr fun i _ => ⟨rfl, rfl, rfl⟩
  · intro hstore horg hrepo
    simp only [Raw.getIssues, hstore, horg, hrepo]

/-- Witness for C7: verbatim fields on the concrete store, and replacing the
user lookup (alice ↦ the empty login) leaves the pass-through result
unchanged. -/
theorem passthrough_verbatim_witness :
    List.Forall₂ (fun (s : Raw.IssueSummary) (i : Issue) =>
        s.AuthorID = i.AuthorID ∧ s.AssigneeIDs = i.AssigneeIDs ∧ s.Title = i.Title)
      (Raw.getIssues rawTopicOK "istio").1 [issueA, issueB]
  ∧ Raw.getIssues rawTopicOK "istio" = Raw.getIssues rawTopicEmptyLogin "istio" :=
  ⟨(passthrough_verbatim rawTopicOK rawTopicEmptyLogin "istio"
      { OrgID := "o1", Login := "istio" } { RepoID := "r1" }).1 rfl rfl rfl,
   (passthrough_verbatim rawTopicOK rawTopicEmptyLogin "istio"
      { OrgID := "o1", Login := "istio" } { RepoID := "r1" }).2 rfl rfl rfl⟩

/-- C9: on the HTML entry point, when the resolver fails the handler renders
the error and then still falls through: it executes the page template (on the
nil issue list the failed resolver returned) and renders the resulting page,
instead of returning right after reporting the error. -/
theorem html_error_fallthrough (t : Topic) (queryOrg : String) (err : GoError)
    (s : String) :
    (getIssues t (if queryOrg = "" then t.options.DefaultOrg else queryOrg)).2 = some err →
    t.page (getIssues t (if queryOrg = "" then t.options.DefaultOrg else queryOrg)).1 = .ok s →
    handleListIssuesHTML t queryOrg
      = [RenderAction.RenderHTMLError err, RenderAction.RenderHTML s] := by
  intro herr hpage
  simp [handleListIssuesHTML, herr, hpage]

/-- Witness for C9: with an erroring cache and a default org of "istio", the
handler both reports the 500 error and renders the page. -/
theorem html_error_fallthrough_witness :
    handleListIssuesHTML topicErr ""
      = [RenderAction.RenderHTMLError (.httpError StatusInternalServerError
           ("unable to get information on organization " ++ "istio" ++ ": " ++ "transport down")),
         RenderAction.RenderHTML "rendered page"] :=
  html_error_fallthrough topicErr ""
    (.httpError StatusInternalServerError
      ("unable to get information on organization " ++ "istio" ++ ": " ++ "transport down"))
    "rendered page" rfl rfl

end Issues

namespace Issues

/-- A 50-character title whose first character is two bytes in UTF-8. -/
def titleMultibyte50 : List Char := 'é' :: List.replicate 49 'a'

/-- An issue whose title is `titleMultibyte50`: 50 characters, 51 bytes. -/
def issueMultibyte : Issue :=
  { Number := 4, Title := utf8Encode titleMultibyte50, State := "open",
    AuthorID := "u1", AssigneeIDs := [] }

/-- An issue whose title is exactly 50 bytes of ASCII. -/
def issue50 : Issue :=
  { Number := 5, Title := List.replicate 50 97, State := "open",
    AuthorID := "u1", AssigneeIDs := [] }

/-- An issue whose title is exactly 51 bytes of ASCII. -/
def issue51 : Issue :=
  { Number := 6, Title := List.replicate 51 97, State := "open",
    AuthorID := "u1", AssigneeIDs := [] }

/-- C3 counterexample: the code measures titles in bytes, not characters.  A
title of exactly 50 characters containing a two-byte character (51 bytes) is
NOT left unmodified, contradicting the claim as stated. -/
theorem title_truncation_chars_counterexample :
    titleMultibyte50.length = 50
  ∧ (projectIssue topicOK "istio" issueMultibyte).Title ≠ issueMultibyte.Title := by
  constructor
  · decide
  · decide

/-- C3 (amended to byte counts): a title of exactly 50 bytes is left unmodified
and a title longer than 50 bytes (in particular exactly 51 bytes) is replaced
by its first 50 bytes followed by the marker ". . .". -/
theorem title_truncation_50_51 (t : Topic) (repoName : String) (i : Issue) :
    (i.Title.length = 50 → (projectIssue t repoName i).Title = i.Title)
  ∧ (50 < i.Title.length →
      (projectIssue t repoName i).Title = i.Title.take 50 ++ ellipsisBytes) := by
  constructor
  · intro h
    have h50 : ¬ (i.Title.length > 50) := by omega
    simp [projectIssue, truncTitle, h50]
  · intro h
    simp [projectIssue, truncTitle, h]

/-- Witness for the amended C3 at a 50-byte and a 51-byte ASCII title. -/
theorem title_truncation_50_51_witness :
    (projectIssue topicOK "istio" issue50).Title = issue50.Title
  ∧ (projectIssue topicOK "istio" issue51).Title
      = issue51.Title.take 50 ++ ellipsisBytes :=
  ⟨(title_truncation_50_51 topicOK "istio" issue50).1 (by decide),
   (title_truncation_50_51 topicOK "istio" issue51).2 (by decide)⟩

/-- C10: title truncation is by bytes: a title of at most 50 bytes is carried
through exactly, a longer one becomes its first 50 bytes plus the 5-byte
marker ". . ." , so every output title is at most 55 bytes; on the concrete
title of 49 ASCII bytes followed by the two-byte character 'é', the cut falls
mid-character, leaving the dangling lead byte 195. -/
theorem title_truncation_bytes (t : Topic) (repoName : String) (i : Issue) :
    (i.Title.length ≤ 50 → (projectIssue t repoName i).Title = i.Title)
  ∧ (50 < i.Title.length →
      (projectIssue t repoName i).Title = i.Title.take 50 ++ ellipsisBytes)
  ∧ (projectIssue t repoName i).Title.length ≤ 55
  ∧ truncTitle (utf8Encode (List.replicate 49 'a' ++ ['é']))
      = (List.replicate 49 97 ++ [195]) ++ ellipsisBytes := by
  refine ⟨?_, ?_, ?_, by decide⟩
  · intro h
    have h50 : ¬ (i.Title.length > 50) := by omega
    simp [projectIssue, truncTitle, h50]
  · intro h
    simp [projectIssue, truncTitle, h]
  · by_cases h : i.Title.length > 50
    · simp [projectIssue, truncTitle, h, ellipsisBytes]
    · simp [projectIssue, truncTitle, h]
      omega

/-- Witness for C10: a short title passes through, the 51-byte multibyte title
is cut to 50 bytes plus the marker, and the output stays within 55 bytes. -/
theorem title_truncation_bytes_witness :
    (projectIssue topicOK "istio" issueB).Title = issueB.Title
  ∧ (projectIssue topicOK "istio" issueMultibyte).Title
      = issueMultibyte.Title.take 50 ++ ellipsisBytes
  ∧ (projectIssue topicOK "istio" issueMultibyte).Title.length ≤ 55 :=
  ⟨(title_truncation_bytes topicOK "istio" issueB).1 (by decide),
   (title_truncation_bytes topicOK "istio" issueMultibyte).2.1 (by decide),
   (title_truncation_bytes topicOK "istio" issueMultibyte).2.2.1⟩

/-- An issue assigned to `u1` and `u2`, used with `cacheEmptyLogin`. -/
def issueEmptyAssignee : Issue :=
  { Number := 3, Title := [104], State := "open", AuthorID := "u1",
    AssigneeIDs := ["u1", "u2"] }

/-- C4 counterexample: when the first assignee resolves to an empty login, the
code's accumulated string is still empty at the second iteration, so no
separator is emitted: the result is "bob", not the join ",\nbob" of the
resolved logins ["", "bob"] the claim prescribes. -/
theorem assignees_join_counterexample :
    getUser topicEmptyLogin "u1" = ""
  ∧ getUser topicEmptyLogin "u2" = "bob"
  ∧ (projectIssue topicEmptyLogin "istio" issueEmptyAssignee).Assignees = "bob"
  ∧ specAssigneeJoin (issueEmptyAssignee.AssigneeIDs.map (getUser topicEmptyLogin)) = ",\nbob"
  ∧ ("bob" : String) ≠ ",\nbob" :=
  ⟨rfl, rfl, rfl, rfl, by decide⟩

/-- C4 (amended): provided every resolved assignee login is non-empty, the
summary's `Assignees` string is the resolved logins joined by a comma
immediately followed by a newline, in input order, with no trailing separator;
it is the empty string when there are no assignees. -/
theorem assignees_join (t : Topic) (repoName : String) (i : Issue)
    (h : ∀ id ∈ i.AssigneeIDs, getUser t id ≠ "") :
    (projectIssue t repoName i).Assignees
      = specAssigneeJoin (i.AssigneeIDs.map (getUser t))
  ∧ (i.AssigneeIDs = [] → (projectIssue t repoName i).Assignees = "") := by
  constructor
  · exact formatAssignees_eq_specJoin t i.AssigneeIDs h
  · intro h0
    simp [projectIssue, formatAssignees, h0]

/-- Witness for the amended C4, realizing the spec's own example:
`AssigneeIDs = ["u1","u2"]` with `u1 ↦ alice`, `u2 ↦ bob` yields exactly
"alice,\nbob". -/
theorem assignees_join_witness :
    (projectIssue topicOK "istio" issueA).Assignees = "alice,\nbob" := by
  have h := (assignees_join topicOK "istio" issueA (by decide)).1
  rw [h]
  rfl

end Issues
